import Mathlib

/-!
A shallow embedding of the poeditor-mcp server (`src/server.ts`): the POEditor
remote-call adapter (`poeditor`), project-id resolution (`requireProjectId`),
and the tool handlers `add_translations`, `update_translations`, `list_terms`,
`add_language` and `add_terms_with_translations`.

Modelling conventions:
* JSON values are the inductive `JVal`; JavaScript numbers that occur in this
  program are integers, so `JVal.num` carries an `Int`.
* `JSON.stringify` drops object fields holding `undefined`; a TypeScript
  object field of type `T | undefined` is therefore embedded as an
  `Option`-valued field, and the serialized record is built by dropping
  `none` fields from the field list.
* Form fields whose value is `JSON.stringify(payload)` are embedded with the
  structured `JVal` payload itself (stringification is injective on it), so
  theorems can talk about the transmitted records.
* The network is an oracle `remote : Call → Except String JVal` passed to each
  handler; a handler returns the ordered trace of calls it attempted together
  with its result.
-/

namespace Poeditor

/-- JSON values, as produced by `JSON.parse` / consumed by `JSON.stringify`. -/
inductive JVal where
  | null
  | bool (b : Bool)
  | num (n : Int)
  | str (s : String)
  | arr (elems : List JVal)
  | obj (fields : List (String × JVal))
deriving Repr

/-- Field lookup on a JSON value: JavaScript `v.k` (with `?.` semantics for
non-objects, which yield `undefined`). -/
def jget (v : JVal) (k : String) : Option JVal :=
  match v with
  | .obj fields => fields.lookup k
  | _ => none

/-- Optional chaining `v?.k` on a possibly-`undefined` value. -/
def oget (v : Option JVal) (k : String) : Option JVal :=
  v.bind (fun x => jget x k)

/-- Replacement `v ?? d` on a JSON field value: the default is taken for an
absent field and for a JSON null. -/
def jsCoalesce (v : Option JVal) (d : JVal) : JVal :=
  match v with
  | some .null => d
  | some x => x
  | none => d

/-- JavaScript truthiness of a JSON value. -/
def jsTruthy : JVal → Bool
  | .null => false
  | .bool b => b
  | .num n => n != 0
  | .str s => !s.isEmpty
  | .arr _ => true
  | .obj _ => true

mutual
/-- JavaScript string interpolation of a JSON value, as in a template literal. -/
def jsDisplay : JVal → String
  | .null => "null"
  | .bool b => if b then "true" else "false"
  | .num n => toString n
  | .str s => s
  | .arr xs => String.intercalate "," (jsDisplayList xs)
  | .obj _ => "[object Object]"

def jsDisplayList : List JVal → List String
  | [] => []
  | x :: xs => jsDisplay x :: jsDisplayList xs
end

/-! Remote call adapter (`poeditor`, server.ts lines 17–36).

The network exchange itself is external; the adapter's observable behaviour
is a function of the response body text and its parse result.  `JSON.parse`
is the runtime's parser, embedded as the oracle argument `parsed : Option JVal`
(`none` means the body text fails strict JSON parsing). -/

/-- Interpolation of `${code ?? ""}`: the remote code when present, else the
empty string (`??` also replaces a JSON null). -/
def codeDisplay : Option JVal → String
  | some .null => ""
  | some v => jsDisplay v
  | none => ""

/-- Failure message of the non-success branch (server.ts lines 31–33):
`POEditor API error ${code ?? ""}: ${json?.response?.message || "Unknown POEditor error"}`. -/
def apiErrorMsg (code message : Option JVal) : String :=
  let msg :=
    match message with
    | some v => if jsTruthy v then jsDisplay v else "Unknown POEditor error"
    | none => "Unknown POEditor error"
  "POEditor API error " ++ codeDisplay code ++ ": " ++ msg

/-- Strict equality `status === "success"` of the status value with the
literal success marker: true exactly for the string "success". -/
def statusIsSuccess : Option JVal → Bool
  | some (.str s) => s == "success"
  | _ => false

/-- Response handling of the `poeditor` helper: on parse failure, raise the
invalid-JSON error carrying the raw text; otherwise require
`json?.response?.status === "success"` and on any other status raise the
`apiErrorMsg` failure. -/
def poeditorResponse (parsed : Option JVal) (text : String) : Except String JVal :=
  match parsed with
  | none => .error ("POEditor: invalid JSON response: " ++ text)
  | some json =>
    if statusIsSuccess (oget (jget json "response") "status") then .ok json
    else .error (apiErrorMsg (oget (jget json "response") "code")
                             (oget (jget json "response") "message"))

/-! Project id resolution (`requireProjectId`, server.ts lines 38–42). -/

/-- A JavaScript value that is either `null`, a number, or `NaN` — the type of
`argProjectId ?? (PROJECT_ID ? Number(PROJECT_ID) : null)`. -/
inductive JSNum where
  | null
  | nan
  | num (n : Int)
deriving Repr, DecidableEq

/-- JavaScript falsiness on that type: `null`, `NaN` and `0` are falsy. -/
def JSNum.falsy : JSNum → Bool
  | .null => true
  | .nan => true
  | .num n => n == 0

/-- Numeric value of a digit string. -/
def digitsVal (cs : List Char) : Int :=
  cs.foldl (fun a c => a * 10 + (c.toNat - 48 : Int)) 0

/-- JavaScript `Number(s)`, modelled for the string shapes a project-id
configuration value can take: the empty string converts to `0`, an optional
sign followed by decimal digits converts to that integer, and any other text
(the model leaves aside whitespace trimming and non-decimal literal forms)
converts to `NaN`. -/
def jsNumber (s : String) : JSNum :=
  match s.toList with
  | [] => .num 0
  | '-' :: rest =>
      if !rest.isEmpty && rest.all Char.isDigit then .num (-(digitsVal rest)) else .nan
  | '+' :: rest =>
      if !rest.isEmpty && rest.all Char.isDigit then .num (digitsVal rest) else .nan
  | cs =>
      if cs.all Char.isDigit then .num (digitsVal cs) else .nan

/-- The error message thrown when no usable project id is available. -/
def missingProjectIdMsg : String :=
  "project_id is required (either pass it to the tool or set POEDITOR_PROJECT_ID)"

/-- Resolution `requireProjectId(argProjectId)`: `argProjectId ?? (PROJECT_ID ? Number(PROJECT_ID) : null)`,
then throw if the result is falsy, else return it.  The process-wide
environment value `POEDITOR_PROJECT_ID` is the explicit argument
`envProjectId` (an unset variable is `none`; string truthiness makes the
empty string behave as unset). -/
def requireProjectId (argProjectId : Option Int) (envProjectId : Option String) :
    Except String Int :=
  let id : JSNum :=
    match argProjectId with
    | some n => .num n
    | none =>
      match envProjectId with
      | some s => if s.isEmpty then .null else jsNumber s
      | none => .null
  match id with
  | .num n => if n == 0 then .error missingProjectIdMsg else .ok n
  | _ => .error missingProjectIdMsg

/-! Validated tool arguments (the zod schemas, server.ts lines 45–99).

A `z.object` field marked `.optional()` is `Option`-valued; `content` has
`.default("")` so after validation it is always a string. -/

/-- The optional plural map `{one?, few?, many?, other?}`. -/
structure PluralMap where
  one : Option String
  few : Option String
  many : Option String
  other : Option String
deriving Repr

/-- One item of `TranslationsInput.items`. -/
structure TransItem where
  term : String
  context : Option String
  content : String
  fuzzy : Option Bool
  plural : Option PluralMap
deriving Repr

/-- Arguments of `add_translations` / `update_translations` (`TranslationsInput`). -/
structure TranslationsArgs where
  project_id : Option Int
  language : String
  items : List TransItem
deriving Repr

/-- The `translation` object of an `AddTermsWithTranslationsInput` item. -/
structure CompoundTranslation where
  content : String
  fuzzy : Option Bool
  plural : Option PluralMap
deriving Repr

/-- One item of `AddTermsWithTranslationsInput.items`. -/
structure CompoundItem where
  term : String
  context : Option String
  reference : Option String
  tags : Option (List String)
  translation : CompoundTranslation
deriving Repr

/-- Arguments of `add_terms_with_translations`. -/
structure CompoundArgs where
  project_id : Option Int
  language : String
  items : List CompoundItem
deriving Repr

/-- A field name accepted by `list_terms`' `fields` parameter. -/
inductive Field where
  | term
  | context
  | translation
deriving Repr, DecidableEq

/-- Arguments of `list_terms` (`ListTermsInput`). -/
structure ListTermsArgs where
  project_id : Option Int
  language : Option String
  limit : Option Nat
  search : Option String
  count_only : Option Bool
  fields : Option (List Field)
deriving Repr

/-- Arguments of `add_language` (`AddLanguageInput`). -/
structure AddLanguageArgs where
  project_id : Option Int
  language : String
deriving Repr

/-! Transmitted records.

`JSON.stringify` drops `undefined`-valued fields, so an optional source field
contributes a key only when present. -/

/-- The field list contributed by an optional string field. -/
def optField (k : String) : Option String → List (String × JVal)
  | some v => [(k, .str v)]
  | none => []

/-- Serialization of a plural map (absent categories are dropped). -/
def pluralJson (p : PluralMap) : JVal :=
  .obj (optField "one" p.one ++ optField "few" p.few ++
        optField "many" p.many ++ optField "other" p.other)

/-- The translation body: `i.plural ? { plural: i.plural } : { content: i.content, fuzzy: i.fuzzy ? 1 : 0 }`. -/
def translationBody (content : String) (fuzzy : Option Bool) (plural : Option PluralMap) : JVal :=
  match plural with
  | some p => .obj [("plural", pluralJson p)]
  | none => .obj [("content", .str content), ("fuzzy", .num (if fuzzy.getD false then 1 else 0))]

/-- One record of the `translations/add` / `translations/update` payload
(server.ts lines 122–126 and 139–143):
`{ term, context: i.context ?? "", translation: ... }`. -/
def translationRecord (i : TransItem) : JVal :=
  .obj [("term", .str i.term),
        ("context", .str (i.context.getD "")),
        ("translation", translationBody i.content i.fuzzy i.plural)]

/-- One record of the compound operation's `terms/add` payload (server.ts
lines 247–252): `{ term, context: item.context, reference, tags }` — the
optional fields are transmitted only when present, since `JSON.stringify`
drops `undefined`. -/
def termRecord (item : CompoundItem) : JVal :=
  .obj ([("term", .str item.term)] ++
        optField "context" item.context ++
        optField "reference" item.reference ++
        (match item.tags with
         | some ts => [("tags", .arr (ts.map .str))]
         | none => []))

/-- One record of the compound operation's `translations/add` payload
(server.ts lines 256–262): `{ term, context: item.context ?? "", translation: ... }`. -/
def compoundTranslationRecord (item : CompoundItem) : JVal :=
  .obj [("term", .str item.term),
        ("context", .str (item.context.getD "")),
        ("translation",
          translationBody item.translation.content item.translation.fuzzy item.translation.plural)]

/-! Tool handlers.

Each handler resolves the project id, then performs its remote calls through
the oracle `remote`, returning the ordered trace of attempted calls together
with its result (the reshaped success payload, or the raised error). -/

/-- One attempted remote call: endpoint path plus form fields.  A field whose
value the code builds as `JSON.stringify(payload)` is carried as the
structured payload. -/
structure Call where
  endpoint : String
  form : List (String × JVal)
deriving Repr

/-- An error surfaced by a tool handler. -/
inductive ToolError where
  | missingId (msg : String)
  | api (msg : String)
deriving Repr

/-- The `translations/add` call of `add_translations` (server.ts line 128). -/
def addTranslationsCall (id : Int) (args : TranslationsArgs) : Call :=
  ⟨"translations/add",
   [("id", .str (toString id)), ("language", .str args.language),
    ("data", .arr (args.items.map translationRecord))]⟩

/-- The `add_translations` tool (server.ts lines 116–131). -/
def add_translations (envPid : Option String) (args : TranslationsArgs)
    (remote : Call → Except String JVal) : List Call × Except ToolError JVal :=
  match requireProjectId args.project_id envPid with
  | .error e => ([], .error (.missingId e))
  | .ok id =>
    let call := addTranslationsCall id args
    match remote call with
    | .error e => ([call], .error (.api e))
    | .ok res => ([call], .ok (jsCoalesce (jget res "result") (.obj [])))

/-- The `translations/update` call of `update_translations` (server.ts line 145). -/
def updateTranslationsCall (id : Int) (args : TranslationsArgs) : Call :=
  ⟨"translations/update",
   [("id", .str (toString id)), ("language", .str args.language),
    ("data", .arr (args.items.map translationRecord))]⟩

/-- The `update_translations` tool (server.ts lines 133–148). -/
def update_translations (envPid : Option String) (args : TranslationsArgs)
    (remote : Call → Except String JVal) : List Call × Except ToolError JVal :=
  match requireProjectId args.project_id envPid with
  | .error e => ([], .error (.missingId e))
  | .ok id =>
    let call := updateTranslationsCall id args
    match remote call with
    | .error e => ([call], .error (.api e))
    | .ok res => ([call], .ok (jsCoalesce (jget res "result") (.obj [])))

/-- The `add_language` tool (server.ts lines 228–237). -/
def add_language (envPid : Option String) (args : AddLanguageArgs)
    (remote : Call → Except String JVal) : List Call × Except ToolError JVal :=
  match requireProjectId args.project_id envPid with
  | .error e => ([], .error (.missingId e))
  | .ok id =>
    let call : Call := ⟨"languages/add", [("id", .str (toString id)), ("language", .str args.language)]⟩
    match remote call with
    | .error e => ([call], .error (.api e))
    | .ok res => ([call], .ok (jsCoalesce (jget res "result") (.obj [])))

/-- Step 1 call of the compound operation (server.ts lines 247–253). -/
def compoundTermsCall (id : Int) (args : CompoundArgs) : Call :=
  ⟨"terms/add",
   [("id", .str (toString id)), ("data", .arr (args.items.map termRecord))]⟩

/-- Step 2 call of the compound operation (server.ts lines 256–268). -/
def compoundTranslationsCall (id : Int) (args : CompoundArgs) : Call :=
  ⟨"translations/add",
   [("id", .str (toString id)), ("language", .str args.language),
    ("data", .arr (args.items.map compoundTranslationRecord))]⟩

/-- The combined result object (server.ts lines 271–274):
`{ terms_added: termRes.result?.terms ?? termRes.result, translations_added: translationRes.result ?? {} }`,
with an `undefined` `terms_added` dropped by `JSON.stringify` (a null one is
kept). -/
def compoundResult (termRes trRes : JVal) : JVal :=
  let ta : Option JVal :=
    match oget (jget termRes "result") "terms" with
    | some .null => jget termRes "result"
    | some v => some v
    | none => jget termRes "result"
  .obj ((match ta with | some v => [("terms_added", v)] | none => []) ++
        [("translations_added", jsCoalesce (jget trRes "result") (.obj []))])

/-- The `add_terms_with_translations` tool (server.ts lines 239–277): add all
terms, then add all translations, sequentially. -/
def add_terms_with_translations (envPid : Option String) (args : CompoundArgs)
    (remote : Call → Except String JVal) : List Call × Except ToolError JVal :=
  match requireProjectId args.project_id envPid with
  | .error e => ([], .error (.missingId e))
  | .ok id =>
    let termCall := compoundTermsCall id args
    match remote termCall with
    | .error e => ([termCall], .error (.api e))
    | .ok termRes =>
      let trCall := compoundTranslationsCall id args
      match remote trCall with
      | .error e => ([termCall, trCall], .error (.api e))
      | .ok trRes => ([termCall, trCall], .ok (compoundResult termRes trRes))

/-! Handler `list_terms` (server.ts lines 150–205). -/

/-- A term object of the remote `terms/list` payload, per the documented
remote schema: term text, an optional context string, and
`translation?.content` collapsed to its optional string value. -/
structure RemoteTerm where
  term : String
  context : Option String
  translationContent : Option String
deriving Repr, DecidableEq

/-- The reduced object kept by `list_terms` (server.ts lines 161–165):
`{ term: t.term, context: t.context || undefined, translation: t.translation?.content || undefined }`
— `||` maps a falsy (empty) string to `undefined`. -/
structure ReducedTerm where
  term : String
  context : Option String
  translation : Option String
deriving Repr, DecidableEq

/-- The reduction of one remote term. -/
def reduceTerm (t : RemoteTerm) : ReducedTerm :=
  { term := t.term,
    context := match t.context with
      | some c => if c.isEmpty then none else some c
      | none => none,
    translation := match t.translationContent with
      | some c => if c.isEmpty then none else some c
      | none => none }

/-- Whether `needle` is a prefix of `hay` (character lists). -/
def charsLead : List Char → List Char → Bool
  | [], _ => true
  | _ :: _, [] => false
  | a :: as, b :: bs => a == b && charsLead as bs

/-- Whether `needle` occurs contiguously in `hay` (character lists). -/
def charsSub (needle : List Char) : List Char → Bool
  | [] => charsLead needle []
  | h :: t => charsLead needle (h :: t) || charsSub needle t

/-- JavaScript `hay.includes(needle)` on strings. -/
def jsIncludes (hay needle : String) : Bool :=
  charsSub needle.toList hay.toList

/-- JavaScript `s.toLowerCase()` (faithful on the ASCII range). -/
def jsToLower (s : String) : String :=
  String.mk (s.toList.map Char.toLower)

/-- The search predicate (server.ts lines 170–174), with the search text
already lowercased:
`t.term?.toLowerCase().includes(s) || t.context?.toLowerCase().includes(s) || t.translation?.toLowerCase().includes(s)`. -/
def searchMatch (sLower : String) (t : ReducedTerm) : Bool :=
  jsIncludes (jsToLower t.term) sLower ||
  (match t.context with | some c => jsIncludes (jsToLower c) sLower | none => false) ||
  (match t.translation with | some c => jsIncludes (jsToLower c) sLower | none => false)

/-- The search filter step (server.ts lines 168–175): applied only when
`args.search` is truthy (present and non-empty). -/
def applySearch (search : Option String) (ts : List ReducedTerm) : List ReducedTerm :=
  match search with
  | some s => if s.isEmpty then ts else ts.filter (searchMatch (jsToLower s))
  | none => ts

/-- Serialization of a reduced term: `undefined` fields are dropped. -/
def reducedToJson (t : ReducedTerm) : JVal :=
  .obj ([("term", .str t.term)] ++ optField "context" t.context ++
        optField "translation" t.translation)

/-- The field projection of one term (server.ts lines 180–186): a fresh
object receiving only the selected fields; a selected field whose reduced
value is `undefined` is dropped on serialization. -/
def projectTerm (fields : List Field) (t : ReducedTerm) : JVal :=
  .obj ((if fields.contains .term then [("term", .str t.term)] else []) ++
        (if fields.contains .context then optField "context" t.context else []) ++
        (if fields.contains .translation then optField "translation" t.translation else []))

/-- The response-shaping pipeline of `list_terms` (server.ts lines 160–203),
as a function of the remote term list: reduce, search-filter, project,
count, and either return `{total}` (count-only) or `{terms, total}` after
the limit cap. -/
def listTermsOutput (args : ListTermsArgs) (remoteTerms : List RemoteTerm) : JVal :=
  let terms := (remoteTerms.map reduceTerm)
  let terms := applySearch args.search terms
  let projected : List JVal :=
    match args.fields with
    | some fs => if fs.isEmpty then terms.map reducedToJson else terms.map (projectTerm fs)
    | none => terms.map reducedToJson
  let total : Int := projected.length
  if args.count_only.getD false then
    .obj [("total", .num total)]
  else
    let final :=
      match args.limit with
      | some l => if l != 0 && decide (l < projected.length) then projected.take l else projected
      | none => projected
    .obj [("terms", .arr final), ("total", .num total)]

/-- The `terms/list` call of `list_terms` (server.ts lines 156–158): the
language field is added only when truthy. -/
def listTermsCall (id : Int) (args : ListTermsArgs) : Call :=
  ⟨"terms/list",
   [("id", .str (toString id))] ++
   (match args.language with
    | some l => if l.isEmpty then [] else [("language", .str l)]
    | none => [])⟩

/-- The `list_terms` tool (server.ts lines 150–205).  Its oracle returns the
`result.terms` array of the remote payload already decoded to the documented
remote schema. -/
def list_terms (envPid : Option String) (args : ListTermsArgs)
    (remote : Call → Except String (List RemoteTerm)) : List Call × Except ToolError JVal :=
  match requireProjectId args.project_id envPid with
  | .error e => ([], .error (.missingId e))
  | .ok id =>
    let call := listTermsCall id args
    match remote call with
    | .error e => ([call], .error (.api e))
    | .ok remoteTerms => ([call], .ok (listTermsOutput args remoteTerms))

/-! Shared helper lemmas. -/

theorem requireProjectId_some (x : Int) (env : Option String) (hx : x ≠ 0) :
    requireProjectId (some x) env = .ok x := by
  simp [requireProjectId, hx]

theorem requireProjectId_env_num (s : String) (n : Int)
    (hs : jsNumber s = .num n) (hn : n ≠ 0) :
    requireProjectId none (some s) = .ok n := by
  by_cases he : s = ""
  · subst he
    have : jsNumber "" = .num 0 := rfl
    rw [this] at hs
    cases hs
    exact absurd rfl hn
  · have hE : s.isEmpty = false := by
      rcases Bool.eq_false_or_eq_true s.isEmpty with h | h
      · exact absurd ((String.isEmpty_iff s).mp h) he
      · exact h
    simp [requireProjectId, hE, hs, hn]

theorem requireProjectId_none_none :
    requireProjectId none none = .error missingProjectIdMsg := rfl

theorem requireProjectId_env_falsy (s : String)
    (h : (jsNumber s).falsy = true) :
    requireProjectId none (some s) = .error missingProjectIdMsg := by
  by_cases he : s = ""
  · subst he; rfl
  · have hE : s.isEmpty = false := by
      rcases Bool.eq_false_or_eq_true s.isEmpty with h | h
      · exact absurd ((String.isEmpty_iff s).mp h) he
      · exact h
    cases hj : jsNumber s with
    | null => simp [requireProjectId, hE, hj]
    | nan => simp [requireProjectId, hE, hj]
    | num n =>
      rw [hj] at h
      have hn : n = 0 := by simpa [JSNum.falsy] using h
      subst hn
      simp [requireProjectId, hE, hj]

theorem add_terms_with_translations_noid (envPid : Option String) (args : CompoundArgs)
    (remote : Call → Except String JVal) (e : String)
    (h : requireProjectId args.project_id envPid = .error e) :
    add_terms_with_translations envPid args remote = ([], .error (.missingId e)) := by
  simp [add_terms_with_translations, h]

theorem add_translations_noid (envPid : Option String) (args : TranslationsArgs)
    (remote : Call → Except String JVal) (e : String)
    (h : requireProjectId args.project_id envPid = .error e) :
    add_translations envPid args remote = ([], .error (.missingId e)) := by
  simp [add_translations, h]

/-! Claim theorems. -/

/-- C3: identifier resolution returns the explicit (validated positive)
per-call identifier when one is given; with no explicit identifier it returns
the configured process-wide default (a string converting to a nonzero
number); with neither it fails with an error naming both the `project_id`
parameter and the `POEDITOR_PROJECT_ID` environment variable, and the tool
attempts no remote call. -/
theorem C3_identifier_resolution :
    (∀ (x : Int) (env : Option String), 0 < x →
      requireProjectId (some x) env = .ok x) ∧
    (∀ (s : String) (y : Int), jsNumber s = .num y → 0 < y →
      requireProjectId none (some s) = .ok y) ∧
    (requireProjectId none none = .error missingProjectIdMsg ∧
      (∃ a b : String, missingProjectIdMsg = a ++ "project_id" ++ b) ∧
      (∃ a b : String, missingProjectIdMsg = a ++ "POEDITOR_PROJECT_ID" ++ b)) ∧
    (∀ (envPid : Option String) (args : CompoundArgs)
        (remote : Call → Except String JVal) (e : String),
      requireProjectId args.project_id envPid = .error e →
      (add_terms_with_translations envPid args remote).1 = []) ∧
    (∀ (envPid : Option String) (args : TranslationsArgs)
        (remote : Call → Except String JVal) (e : String),
      requireProjectId args.project_id envPid = .error e →
      (add_translations envPid args remote).1 = []) := by
  refine ⟨fun x env hx => requireProjectId_some x env hx.ne',
    fun s y hs hy => requireProjectId_env_num s y hs hy.ne',
    ⟨requireProjectId_none_none,
      ⟨"", " is required (either pass it to the tool or set POEDITOR_PROJECT_ID)", rfl⟩,
      ⟨"project_id is required (either pass it to the tool or set ", ")", rfl⟩⟩,
    fun envPid args remote e h => ?_, fun envPid args remote e h => ?_⟩
  · rw [add_terms_with_translations_noid envPid args remote e h]
  · rw [add_translations_noid envPid args remote e h]

theorem C3_witness :
    requireProjectId (some 7) (some "9") = .ok 7 ∧
    requireProjectId none (some "9") = .ok 9 :=
  ⟨C3_identifier_resolution.1 7 (some "9") (by norm_num),
   C3_identifier_resolution.2.1 "9" 9 (by decide) (by norm_num)⟩

/-- C10: with no explicit identifier, a configured default string that does
not convert to a nonzero number (for example "0" or non-numeric text)
triggers the missing-identifier error exactly as if no default were
configured, and no remote call is attempted; a default converting to a
nonzero number resolves to that number. -/
theorem C10_default_conversion :
    (∀ s : String, (jsNumber s).falsy = true →
      requireProjectId none (some s) = .error missingProjectIdMsg ∧
      requireProjectId none (some s) = requireProjectId none none) ∧
    (∀ (s : String) (args : CompoundArgs) (remote : Call → Except String JVal),
      args.project_id = none → (jsNumber s).falsy = true →
      (add_terms_with_translations (some s) args remote).1 = []) ∧
    (∀ (s : String) (n : Int), jsNumber s = .num n → n ≠ 0 →
      requireProjectId none (some s) = .ok n) := by
  refine ⟨fun s h => ?_, fun s args remote hpid h => ?_, fun s n hs hn =>
    requireProjectId_env_num s n hs hn⟩
  · have h1 := requireProjectId_env_falsy s h
    exact ⟨h1, by rw [h1, requireProjectId_none_none]⟩
  · have h1 : requireProjectId args.project_id (some s) = .error missingProjectIdMsg := by
      rw [hpid]; exact requireProjectId_env_falsy s h
    rw [add_terms_with_translations_noid (some s) args remote _ h1]

theorem C10_witness :
    requireProjectId none (some "0") = .error missingProjectIdMsg ∧
    requireProjectId none (some "abc") = .error missingProjectIdMsg ∧
    requireProjectId none (some "42") = .ok 42 :=
  ⟨(C10_default_conversion.1 "0" (by decide)).1,
   (C10_default_conversion.1 "abc" (by decide)).1,
   C10_default_conversion.2.2 "42" 42 (by decide) (by decide)⟩

theorem statusIsSuccess_iff (v : Option JVal) :
    statusIsSuccess v = true ↔ v = some (.str "success") := by
  cases v with
  | none => simp [statusIsSuccess]
  | some x => cases x <;> simp [statusIsSuccess]

theorem poeditorResponse_some (j : JVal) (t : String) :
    poeditorResponse (some j) t =
      if statusIsSuccess (oget (jget j "response") "status") then .ok j
      else .error (apiErrorMsg (oget (jget j "response") "code")
                               (oget (jget j "response") "message")) := rfl

/-- C5 (amended): the adapter returns the parsed payload exactly when the
nested status field equals the literal success marker; for any other status
it raises the error built from the remote-supplied code and message when the
message is present and truthy, and from the generic unknown-error message
when the message is absent or falsy (such as a present but empty message). -/
theorem C5_envelope_check :
    (∀ (j : JVal) (t : String),
      poeditorResponse (some j) t = .ok j ↔
        oget (jget j "response") "status" = some (.str "success")) ∧
    (∀ (j r : JVal) (t : String), poeditorResponse (some j) t = .ok r → r = j) ∧
    (∀ (j v : JVal) (t : String),
      oget (jget j "response") "status" ≠ some (.str "success") →
      oget (jget j "response") "message" = some v → jsTruthy v = true →
      poeditorResponse (some j) t =
        .error ("POEditor API error " ++
          codeDisplay (oget (jget j "response") "code") ++ ": " ++ jsDisplay v)) ∧
    (∀ (j : JVal) (t : String),
      oget (jget j "response") "status" ≠ some (.str "success") →
      (oget (jget j "response") "message" = none ∨
        ∃ v, oget (jget j "response") "message" = some v ∧ jsTruthy v = false) →
      poeditorResponse (some j) t =
        .error ("POEditor API error " ++
          codeDisplay (oget (jget j "response") "code") ++ ": " ++
          "Unknown POEditor error")) := by
  have hfalse : ∀ j : JVal, oget (jget j "response") "status" ≠ some (.str "success") →
      statusIsSuccess (oget (jget j "response") "status") = false := by
    intro j hst
    rcases Bool.eq_false_or_eq_true (statusIsSuccess (oget (jget j "response") "status")) with h | h
    · exact absurd ((statusIsSuccess_iff _).mp h) hst
    · exact h
  refine ⟨fun j t => ⟨fun hok => ?_, fun hs => ?_⟩,
    fun j r t hok => ?_, fun j v t hst hmsg htr => ?_, fun j t hst hmsg => ?_⟩
  · rw [poeditorResponse_some] at hok
    by_cases hs : statusIsSuccess (oget (jget j "response") "status") = true
    · exact (statusIsSuccess_iff _).mp hs
    · rw [if_neg hs] at hok
      exact absurd hok (by simp)
  · rw [poeditorResponse_some, if_pos ((statusIsSuccess_iff _).mpr hs)]
  · rw [poeditorResponse_some] at hok
    by_cases hs : statusIsSuccess (oget (jget j "response") "status") = true
    · rw [if_pos hs] at hok
      injection hok with h
      exact h.symm
    · rw [if_neg hs] at hok
      exact absurd hok (by simp)
  · rw [poeditorResponse_some, if_neg (by simp [hfalse j hst])]
    simp [apiErrorMsg, hmsg, htr]
  · rw [poeditorResponse_some, if_neg (by simp [hfalse j hst])]
    rcases hmsg with h | ⟨v, hv, htr⟩
    · simp [apiErrorMsg, h]
    · simp [apiErrorMsg, hv, htr]

/-- C5 counterexample input: an envelope whose nested message field is
present but holds the empty string. -/
def c5Envelope : JVal :=
  .obj [("response",
         .obj [("status", .str "fail"), ("code", .str "403"), ("message", .str "")])]

theorem C5_counterexample :
    oget (jget c5Envelope "response") "message" = some (.str "") ∧
    poeditorResponse (some c5Envelope) "body" =
      .error "POEditor API error 403: Unknown POEditor error" ∧
    poeditorResponse (some c5Envelope) "body" ≠ .error "POEditor API error 403: " := by
  refine ⟨rfl, rfl, fun h => ?_⟩
  have h1 : poeditorResponse (some c5Envelope) "body" =
      .error "POEditor API error 403: Unknown POEditor error" := rfl
  rw [h1] at h
  injection h with h2
  exact absurd h2 (by decide)

theorem C5_witness :
    poeditorResponse (some c5Envelope) "body" =
      .error ("POEditor API error " ++
        codeDisplay (oget (jget c5Envelope "response") "code") ++ ": " ++
        "Unknown POEditor error") :=
  C5_envelope_check.2.2.2 c5Envelope "body"
    (fun h => by
      have h0 : oget (jget c5Envelope "response") "status" = some (.str "fail") := rfl
      rw [h0] at h
      exact absurd (JVal.str.inj (Option.some.inj h)) (by decide))
    (Or.inr ⟨.str "", rfl, rfl⟩)

/-- C6: a response body that fails strict JSON parsing makes the adapter
raise the malformed-response error whose message carries the raw body text,
and no payload is returned to the caller. -/
theorem C6_invalid_json :
    ∀ text : String,
      poeditorResponse none text =
        .error ("POEditor: invalid JSON response: " ++ text) ∧
      ∀ j : JVal, poeditorResponse none text ≠ .ok j := by
  intro text
  refine ⟨rfl, fun j h => ?_⟩
  simp [poeditorResponse] at h

theorem C6_witness :
    poeditorResponse none "<html>" =
      .error "POEditor: invalid JSON response: <html>" :=
  (C6_invalid_json "<html>").1

/-- C4: every transmitted translation record of `add_translations` and
`update_translations` carries a context key holding exactly the empty string
when no explicit context was supplied (the key is never omitted); its
translation body is exactly the plural map when one is present, and exactly
content plus a fuzzy flag coerced to 0 or 1 otherwise. -/
theorem C4_translation_records :
    (∀ i : TransItem,
      jget (translationRecord i) "context" = some (.str (i.context.getD "")) ∧
      (i.context = none → jget (translationRecord i) "context" = some (.str "")) ∧
      (∀ p, i.plural = some p →
        jget (translationRecord i) "translation" =
          some (.obj [("plural", pluralJson p)])) ∧
      (i.plural = none →
        jget (translationRecord i) "translation" =
          some (.obj [("content", .str i.content),
                      ("fuzzy", .num (if i.fuzzy.getD false then 1 else 0))]) ∧
        ((if i.fuzzy.getD false then (1 : Int) else 0) = 0 ∨
         (if i.fuzzy.getD false then (1 : Int) else 0) = 1))) ∧
    (∀ (id : Int) (args : TranslationsArgs),
      (addTranslationsCall id args).form.lookup "data" =
        some (.arr (args.items.map translationRecord)) ∧
      (updateTranslationsCall id args).form.lookup "data" =
        some (.arr (args.items.map translationRecord))) := by
  refine ⟨fun i => ⟨rfl, fun h => ?_, fun p hp => ?_, fun hp => ⟨?_, ?_⟩⟩,
    fun id args => ⟨rfl, rfl⟩⟩
  · simp only [translationRecord]
    rw [h]
    rfl
  · simp only [translationRecord, translationBody]
    rw [hp]
    rfl
  · simp only [translationRecord, translationBody]
    rw [hp]
    rfl
  · cases hf : i.fuzzy.getD false <;> simp

theorem C4_witness :
    jget (translationRecord ⟨"greet", none, "hi", none, none⟩) "context" =
      some (.str "") ∧
    jget (translationRecord ⟨"greet", none, "hi", none, none⟩) "translation" =
      some (.obj [("content", .str "hi"), ("fuzzy", .num 0)]) :=
  ⟨(C4_translation_records.1 ⟨"greet", none, "hi", none, none⟩).2.1 rfl,
   ((C4_translation_records.1 ⟨"greet", none, "hi", none, none⟩).2.2.2 rfl).1⟩

/-- Example input for the compound operation: one item with no explicit
context. -/
def exampleItem : CompoundItem :=
  ⟨"hello", none, none, none, ⟨"bonjour", none, none⟩⟩

def exampleArgs : CompoundArgs := ⟨some 1, "fr", [exampleItem]⟩

def exampleRemoteOk : Call → Except String JVal := fun _ => .ok (.obj [])

/-- C1 counterexample: running the compound operation on an item with no
explicit context, the first remote call's term record has no context key at
all, while the second remote call's translation record for the same item
transmits the empty-string context — the two calls do not transmit the same
context value. -/
theorem C1_counterexample :
    (add_terms_with_translations none exampleArgs exampleRemoteOk).1 =
      [compoundTermsCall 1 exampleArgs, compoundTranslationsCall 1 exampleArgs] ∧
    (compoundTermsCall 1 exampleArgs).form.lookup "data" =
      some (.arr [termRecord exampleItem]) ∧
    jget (termRecord exampleItem) "context" = none ∧
    (compoundTranslationsCall 1 exampleArgs).form.lookup "data" =
      some (.arr [compoundTranslationRecord exampleItem]) ∧
    jget (compoundTranslationRecord exampleItem) "context" = some (.str "") :=
  ⟨rfl, rfl, rfl, rfl, rfl⟩

/-- C1 (amended): for every compound item with an explicit context, the
add-term record and the add-translation record transmit the identical
context value; for an item with no explicit context, the add-term record
omits the context key entirely while the add-translation record transmits
the empty string. -/
theorem C1_compound_context :
    (∀ (item : CompoundItem) (c : String), item.context = some c →
      jget (termRecord item) "context" = some (.str c) ∧
      jget (compoundTranslationRecord item) "context" = some (.str c)) ∧
    (∀ item : CompoundItem, item.context = none →
      jget (termRecord item) "context" = none ∧
      jget (compoundTranslationRecord item) "context" = some (.str "")) ∧
    (∀ (id : Int) (args : CompoundArgs),
      (compoundTermsCall id args).form.lookup "data" =
        some (.arr (args.items.map termRecord)) ∧
      (compoundTranslationsCall id args).form.lookup "data" =
        some (.arr (args.items.map compoundTranslationRecord))) := by
  refine ⟨fun item c h => ⟨?_, ?_⟩, fun item h => ⟨?_, ?_⟩,
    fun id args => ⟨rfl, rfl⟩⟩
  · simp only [termRecord]
    rw [h]
    rfl
  · simp only [compoundTranslationRecord]
    rw [h]
    rfl
  · simp only [termRecord]
    rw [h]
    cases href : item.reference <;> cases htags : item.tags <;> rfl
  · simp only [compoundTranslationRecord]
    rw [h]
    rfl

theorem C1_witness :
    jget (termRecord exampleItem) "context" = none ∧
    jget (compoundTranslationRecord exampleItem) "context" = some (.str "") :=
  C1_compound_context.2.1 exampleItem rfl

/-- C2: with a resolved project id, the compound operation's first remote
call is the term-creation call; if that call fails, the operation raises the
failure after exactly that one call (the translation-insertion endpoint is
never contacted); if the term-creation call succeeds and the
translation-insertion call fails, the operation raises the failure after
exactly those two calls, in order, with no compensating call undoing the
first. -/
theorem C2_compound_ordering :
    ∀ (envPid : Option String) (args : CompoundArgs)
      (remote : Call → Except String JVal) (id : Int),
      requireProjectId args.project_id envPid = .ok id →
      ((add_terms_with_translations envPid args remote).1.head? =
          some (compoundTermsCall id args) ∧
        (compoundTermsCall id args).endpoint = "terms/add" ∧
        (compoundTranslationsCall id args).endpoint = "translations/add") ∧
      (∀ e, remote (compoundTermsCall id args) = .error e →
        add_terms_with_translations envPid args remote =
          ([compoundTermsCall id args], .error (.api e)) ∧
        ∀ c ∈ (add_terms_with_translations envPid args remote).1,
          c.endpoint ≠ "translations/add") ∧
      (∀ r e, remote (compoundTermsCall id args) = .ok r →
        remote (compoundTranslationsCall id args) = .error e →
        add_terms_with_translations envPid args remote =
          ([compoundTermsCall id args, compoundTranslationsCall id args],
            .error (.api e))) := by
  intro envPid args remote id hid
  refine ⟨⟨?_, rfl, rfl⟩, fun e he => ?_, fun r e hr he => ?_⟩
  · simp only [add_terms_with_translations, hid]
    cases h1 : remote (compoundTermsCall id args) with
    | error e => rfl
    | ok r => cases h2 : remote (compoundTranslationsCall id args) <;> rfl
  · have hrun : add_terms_with_translations envPid args remote =
        ([compoundTermsCall id args], .error (.api e)) := by
      simp [add_terms_with_translations, hid, he]
    refine ⟨hrun, ?_⟩
    rw [hrun]
    intro c hc
    rw [List.mem_singleton] at hc
    subst hc
    show ("terms/add" : String) ≠ "translations/add"
    decide
  · simp [add_terms_with_translations, hid, hr, he]

def exampleRemoteFail : Call → Except String JVal :=
  fun c => if c.endpoint == "terms/add" then .error "boom" else .ok .null

theorem C2_witness :
    add_terms_with_translations none exampleArgs exampleRemoteFail =
      ([compoundTermsCall 1 exampleArgs], .error (.api "boom")) :=
  ((C2_compound_ordering none exampleArgs exampleRemoteFail 1 rfl).2.1 "boom" rfl).1

theorem charsSub_nil (l : List Char) : charsSub [] l = true := by
  cases l <;> simp [charsSub, charsLead]

theorem jsIncludes_nil (hay : String) : jsIncludes hay "" = true := by
  have h : "".toList = ([] : List Char) := rfl
  simp [jsIncludes, h, charsSub_nil]

theorem isEmpty_false_of_ne (s : String) (h : s ≠ "") : s.isEmpty = false := by
  rcases Bool.eq_false_or_eq_true s.isEmpty with h1 | h1
  · exact absurd ((String.isEmpty_iff s).mp h1) h
  · exact h1

/-- C7: when count-only is requested, a successful list_terms call returns an
object containing only a total field — no terms list — whose value is the
number of terms remaining after the search filter; the field projection is a
per-element map and cannot change that count. -/
theorem C7_count_only :
    ∀ (args : ListTermsArgs) (remoteTerms : List RemoteTerm),
      args.count_only = some true →
      listTermsOutput args remoteTerms =
        .obj [("total",
          .num ((applySearch args.search (remoteTerms.map reduceTerm)).length))] ∧
      jget (listTermsOutput args remoteTerms) "terms" = none := by
  intro args rt h
  have hout : listTermsOutput args rt =
      .obj [("total",
        .num ((applySearch args.search (rt.map reduceTerm)).length))] := by
    simp only [listTermsOutput, h, Option.getD_some, if_true]
    cases hf : args.fields with
    | none => simp
    | some fs => by_cases hfe : fs = [] <;> simp [hfe]
  exact ⟨hout, by rw [hout]; rfl⟩

theorem C7_witness :
    listTermsOutput ⟨some 1, none, none, some "hello", some true, none⟩
      [⟨"Hello world", some "", none⟩, ⟨"Goodbye", none, none⟩] =
      .obj [("total", .num 1)] := by
  rw [(C7_count_only ⟨some 1, none, none, some "hello", some true, none⟩
    [⟨"Hello world", some "", none⟩, ⟨"Goodbye", none, none⟩] rfl).1]
  rfl

/-- C8: the list_terms search keeps exactly those reduced terms whose term
text, context, or translation content contains the search text
case-insensitively; in particular over the terms "Hello world" and
"Goodbye", a search for "hello" in any letter case keeps only
"Hello world". -/
theorem C8_search_filter :
    (∀ (s : String) (ts : List ReducedTerm) (t : ReducedTerm),
      t ∈ applySearch (some s) ts ↔
        t ∈ ts ∧
        (jsIncludes (jsToLower t.term) (jsToLower s) = true ∨
         (∃ c, t.context = some c ∧ jsIncludes (jsToLower c) (jsToLower s) = true) ∨
         (∃ c, t.translation = some c ∧
           jsIncludes (jsToLower c) (jsToLower s) = true))) ∧
    applySearch (some "hello")
      [⟨"Hello world", none, none⟩, ⟨"Goodbye", none, none⟩] =
      [⟨"Hello world", none, none⟩] ∧
    applySearch (some "HeLLo")
      [⟨"Hello world", none, none⟩, ⟨"Goodbye", none, none⟩] =
      [⟨"Hello world", none, none⟩] := by
  refine ⟨fun s ts t => ?_, by decide, by decide⟩
  have hmatch : searchMatch (jsToLower s) t = true ↔
      (jsIncludes (jsToLower t.term) (jsToLower s) = true ∨
       (∃ c, t.context = some c ∧ jsIncludes (jsToLower c) (jsToLower s) = true) ∨
       (∃ c, t.translation = some c ∧
         jsIncludes (jsToLower c) (jsToLower s) = true)) := by
    cases hc : t.context <;> cases ht : t.translation <;>
      simp [searchMatch, hc, ht, or_assoc]
  by_cases hs : s = ""
  · subst hs
    have hA : applySearch (some "") ts = ts := rfl
    have h0 : jsToLower "" = "" := rfl
    rw [hA, h0]
    simp [jsIncludes_nil]
  · have hA : applySearch (some s) ts = ts.filter (searchMatch (jsToLower s)) := by
      simp [applySearch, isEmpty_false_of_ne s hs]
    rw [hA, List.mem_filter, hmatch]

theorem C8_witness :
    applySearch (some "hello")
      [⟨"Hello world", none, none⟩, ⟨"Goodbye", none, none⟩] =
      [⟨"Hello world", none, none⟩] :=
  C8_search_filter.2.1

/-- C9: a remote term whose context is the empty string reduces to an object
with no context value at all — the serialized reduced record has no context
key — and is indistinguishable, in the output serialization, the substring
search, and the field projection, from the same term with no context. -/
theorem C9_empty_context :
    ∀ t : RemoteTerm, t.context = some "" →
      reduceTerm t = reduceTerm { t with context := none } ∧
      (reduceTerm t).context = none ∧
      jget (reducedToJson (reduceTerm t)) "context" = none ∧
      (∀ fs : List Field, projectTerm fs (reduceTerm t) =
        projectTerm fs (reduceTerm { t with context := none })) ∧
      (∀ sLower : String, searchMatch sLower (reduceTerm t) =
        searchMatch sLower (reduceTerm { t with context := none })) := by
  intro t h
  have hred : reduceTerm t = reduceTerm { t with context := none } := by
    simp [reduceTerm, h, String.isEmpty_iff]
  have hctx : (reduceTerm t).context = none := by
    simp [reduceTerm, h, String.isEmpty_iff]
  refine ⟨hred, hctx, ?_, fun fs => by rw [hred], fun s => by rw [hred]⟩
  generalize hr : reduceTerm t = r at hctx
  obtain ⟨tm, ctx, tr⟩ := r
  simp only at hctx
  subst hctx
  cases tr <;> rfl

theorem C9_witness :
    reduceTerm ⟨"Hi", some "", none⟩ = reduceTerm ⟨"Hi", none, none⟩ ∧
    jget (reducedToJson (reduceTerm ⟨"Hi", some "", none⟩)) "context" = none :=
  ⟨(C9_empty_context ⟨"Hi", some "", none⟩ rfl).1,
   (C9_empty_context ⟨"Hi", some "", none⟩ rfl).2.2.1⟩

end Poeditor
